import Mathlib

/-- ASCII lowercase of a character, as in the relevant behavior of
String.prototype.toLowerCase for the field names involved. -/
def jsCharToLower (c : Char) : Char :=
  if 65 ≤ c.toNat ∧ c.toNat ≤ 90 then Char.ofNat (c.toNat + 32) else c

/-- Lowercasing of a string, character by character. -/
def jsToLower (s : String) : String :=
  String.mk (s.data.map jsCharToLower)

/-- Does the first list occur at the head of the second? -/
def headMatches : List Char → List Char → Bool
  | [], _ => true
  | _ :: _, [] => false
  | a :: as, b :: bs => a = b && headMatches as bs

/-- Does the first list occur contiguously anywhere inside the second? -/
def containsSeq (sub : List Char) : List Char → Bool
  | [] => sub.isEmpty
  | b :: bs => headMatches sub (b :: bs) || containsSeq sub bs

/-- Model of String.prototype.includes. -/
def jsIncludes (s sub : String) : Bool :=
  containsSeq sub.data s.data

example : jsToLower "JSON Schema" = "json schema" := rfl

example : jsIncludes (jsToLower "JSON Schema") "schema" = true := rfl

example : jsIncludes "Notes" "json" = false := rfl

/-- JSON values, as produced by the platform JSON.parse and consumed by
JSON.stringify.  Numbers are kept as their source lexeme, which is all the
component ever observes of them (numeric semantics of the payload are
irrelevant to the component). -/
inductive Json where
  | null
  | bool (b : Bool)
  | num (lexeme : String)
  | str (s : String)
  | arr (elems : List Json)
  | obj (fields : List (String × Json))

/-- Hexadecimal digit character (lowercase), for string escapes. -/
def hexDigitChar (n : Nat) : Char :=
  if n < 10 then Char.ofNat (48 + n) else Char.ofNat (87 + n)

/-- How JSON.stringify escapes one character inside a string literal. -/
def Json.escapeChar (c : Char) : String :=
  if c = '"' then "\\\""
  else if c = '\\' then "\\\\"
  else if c.toNat = 8 then "\\b"
  else if c = '\t' then "\\t"
  else if c = '\n' then "\\n"
  else if c.toNat = 12 then "\\f"
  else if c = '\r' then "\\r"
  else if c.toNat < 32 then
    String.mk ['\\', 'u', '0', '0', hexDigitChar (c.toNat / 16), hexDigitChar (c.toNat % 16)]
  else String.singleton c

/-- A JSON string literal with its surrounding quotes, as JSON.stringify
renders it. -/
def Json.quote (s : String) : String :=
  "\"" ++ String.join (s.data.map Json.escapeChar) ++ "\""

/-- Indentation of a given number of spaces. -/
def indentStr (n : Nat) : String :=
  String.mk (List.replicate n ' ')

mutual

/-- JSON.stringify(v, null, 2) at nesting depth producing indent d:
pretty-printing with two-space indentation, as the component uses to render
structured payloads. -/
def Json.stringifyAt : Nat → Json → String
  | _, .null => "null"
  | _, .bool true => "true"
  | _, .bool false => "false"
  | _, .num lexeme => lexeme
  | _, .str s => Json.quote s
  | _, .arr [] => "[]"
  | d, .arr (e :: es) =>
      "[\n" ++ String.intercalate ",\n" (Json.stringifyItems (d + 2) (e :: es))
        ++ "\n" ++ indentStr d ++ "]"
  | _, .obj [] => "\x7b\x7d"
  | d, .obj (f :: fs) =>
      "\x7b\n" ++ String.intercalate ",\n" (Json.stringifyFields (d + 2) (f :: fs))
        ++ "\n" ++ indentStr d ++ "\x7d"

/-- Rendered array elements, one per line at the given indent. -/
def Json.stringifyItems : Nat → List Json → List String
  | _, [] => []
  | d, e :: es => (indentStr d ++ Json.stringifyAt d e) :: Json.stringifyItems d es

/-- Rendered object members, one per line at the given indent. -/
def Json.stringifyFields : Nat → List (String × Json) → List String
  | _, [] => []
  | d, (k, v) :: fs =>
      (indentStr d ++ Json.quote k ++ ": " ++ Json.stringifyAt d v) :: Json.stringifyFields d fs

end

/-- Top-level pretty-printed JSON text, i.e. JSON.stringify(v, null, 2). -/
def Json.stringify (j : Json) : String :=
  Json.stringifyAt 0 j

example :
    Json.stringify (Json.obj [("a", Json.num "1"), ("b", Json.arr [Json.str "x"])]) =
      "\x7b\n  \"a\": 1,\n  \"b\": [\n    \"x\"\n  ]\n\x7d" := rfl

/-- The opening curly brace character. -/
def lbrace : Char := Char.ofNat 123

/-- The closing curly brace character. -/
def rbrace : Char := Char.ofNat 125

/-- JSON insignificant whitespace. -/
def isJsonWs (c : Char) : Bool :=
  c = ' ' || c = '\t' || c = '\n' || c = '\r'

/-- Drop leading JSON whitespace. -/
def skipWs : List Char → List Char
  | [] => []
  | c :: cs => if isJsonWs c then skipWs cs else c :: cs

/-- Value of a hexadecimal digit character, if it is one. -/
def hexDigitVal (c : Char) : Option Nat :=
  if 48 ≤ c.toNat ∧ c.toNat ≤ 57 then some (c.toNat - 48)
  else if 97 ≤ c.toNat ∧ c.toNat ≤ 102 then some (c.toNat - 87)
  else if 65 ≤ c.toNat ∧ c.toNat ≤ 70 then some (c.toNat - 55)
  else none

/-- Split off a run of leading decimal digits. -/
def spanDigits (cs : List Char) : List Char × List Char :=
  (cs.takeWhile Char.isDigit, cs.dropWhile Char.isDigit)

/-- Integer part of a JSON number: a lone 0, or a nonzero digit followed by
digits. -/
def parseIntPart : List Char → Option (List Char × List Char)
  | [] => none
  | c :: rest =>
    if c = '0' then some (['0'], rest)
    else if c.isDigit then
      some (c :: (spanDigits rest).1, (spanDigits rest).2)
    else none

/-- Optional fraction part of a JSON number. -/
def parseFracPart : List Char → Option (List Char × List Char)
  | '.' :: rest =>
      if (spanDigits rest).1 = [] then none
      else some ('.' :: (spanDigits rest).1, (spanDigits rest).2)
  | cs => some ([], cs)

/-- Optional exponent part of a JSON number. -/
def parseExpPart : List Char → Option (List Char × List Char)
  | [] => some ([], [])
  | c :: rest =>
    if c = 'e' ∨ c = 'E' then
      match rest with
      | [] => none
      | s :: rest2 =>
        if s = '+' ∨ s = '-' then
          if (spanDigits rest2).1 = [] then none
          else some (c :: s :: (spanDigits rest2).1, (spanDigits rest2).2)
        else
          if (spanDigits rest).1 = [] then none
          else some (c :: (spanDigits rest).1, (spanDigits rest).2)
    else some ([], c :: rest)

/-- A JSON number, returned as its lexeme. -/
def parseNum (cs : List Char) : Option (String × List Char) :=
  let sign : List Char × List Char :=
    match cs with
    | '-' :: rest => (['-'], rest)
    | _ => ([], cs)
  match parseIntPart sign.2 with
  | none => none
  | some (ip, cs2) =>
    match parseFracPart cs2 with
    | none => none
    | some (fp, cs3) =>
      match parseExpPart cs3 with
      | none => none
      | some (ep, cs4) => some (String.mk (sign.1 ++ ip ++ fp ++ ep), cs4)

/-- Body of a JSON string literal, after the opening quote; decodes escapes.
Restricted to Unicode scalar values: a \u escape denoting a lone surrogate is
rejected rather than decoded. -/
def parseStrBody : Nat → List Char → Option (String × List Char)
  | 0, _ => none
  | fuel + 1, cs =>
    match cs with
    | [] => none
    | c :: rest =>
      if c = '"' then some ("", rest)
      else if c = '\\' then
        match rest with
        | [] => none
        | e :: rest2 =>
          let dec : Option (Char × List Char) :=
            if e = '"' then some ('"', rest2)
            else if e = '\\' then some ('\\', rest2)
            else if e = '/' then some ('/', rest2)
            else if e = 'b' then some (Char.ofNat 8, rest2)
            else if e = 'f' then some (Char.ofNat 12, rest2)
            else if e = 'n' then some ('\n', rest2)
            else if e = 'r' then some ('\r', rest2)
            else if e = 't' then some ('\t', rest2)
            else if e = 'u' then
              match rest2 with
              | h1 :: h2 :: h3 :: h4 :: rest3 =>
                match hexDigitVal h1, hexDigitVal h2, hexDigitVal h3, hexDigitVal h4 with
                | some a, some b, some c2, some d =>
                  let n := ((a * 16 + b) * 16 + c2) * 16 + d
                  if n < 55296 ∨ 57343 < n then some (Char.ofNat n, rest3) else none
                | _, _, _, _ => none
              | _ => none
            else none
          match dec with
          | none => none
          | some (ch, rest3) =>
            match parseStrBody fuel rest3 with
            | none => none
            | some (s, rest4) => some (String.mk (ch :: s.data), rest4)
      else if c.toNat < 32 then none
      else
        match parseStrBody fuel rest with
        | none => none
        | some (s, rest2) => some (String.mk (c :: s.data), rest2)

mutual

/-- One JSON value, fuel-indexed recursive descent. -/
def parseVal : Nat → List Char → Option (Json × List Char)
  | 0, _ => none
  | fuel + 1, cs =>
    match skipWs cs with
    | [] => none
    | c :: rest =>
      if c = '"' then
        match parseStrBody (cs.length + 1) rest with
        | some (s, r) => some (.str s, r)
        | none => none
      else if c = '[' then
        match skipWs rest with
        | ']' :: r2 => some (.arr [], r2)
        | cs2 =>
          match parseArrItems fuel cs2 with
          | some (js, r3) => some (.arr js, r3)
          | none => none
      else if c = lbrace then
        match skipWs rest with
        | [] => none
        | d :: r2 =>
          if d = rbrace then some (.obj [], r2)
          else
            match parseObjItems fuel (d :: r2) with
            | some (fs, r3) => some (.obj fs, r3)
            | none => none
      else if c = 't' then
        match rest with
        | 'r' :: 'u' :: 'e' :: r => some (.bool true, r)
        | _ => none
      else if c = 'f' then
        match rest with
        | 'a' :: 'l' :: 's' :: 'e' :: r => some (.bool false, r)
        | _ => none
      else if c = 'n' then
        match rest with
        | 'u' :: 'l' :: 'l' :: r => some (.null, r)
        | _ => none
      else if c = '-' ∨ c.isDigit then
        match parseNum (c :: rest) with
        | some (lexeme, r) => some (.num lexeme, r)
        | none => none
      else none

/-- Elements of a nonempty JSON array, up to and including the closing
bracket. -/
def parseArrItems : Nat → List Char → Option (List Json × List Char)
  | 0, _ => none
  | fuel + 1, cs =>
    match parseVal fuel cs with
    | none => none
    | some (j, r) =>
      match skipWs r with
      | ',' :: r2 =>
        match parseArrItems fuel r2 with
        | some (js, r3) => some (j :: js, r3)
        | none => none
      | ']' :: r2 => some ([j], r2)
      | _ => none

/-- Members of a nonempty JSON object, up to and including the closing
brace. -/
def parseObjItems : Nat → List Char → Option (List (String × Json) × List Char)
  | 0, _ => none
  | fuel + 1, cs =>
    match skipWs cs with
    | '"' :: r1 =>
      match parseStrBody (cs.length + 1) r1 with
      | none => none
      | some (k, r2) =>
        match skipWs r2 with
        | ':' :: r3 =>
          match parseVal fuel r3 with
          | none => none
          | some (v, r4) =>
            match skipWs r4 with
            | ',' :: r5 =>
              match parseObjItems fuel r5 with
              | some (fs, r6) => some ((k, v) :: fs, r6)
              | none => none
            | d :: r5 => if d = rbrace then some ([(k, v)], r5) else none
            | [] => none
        | _ => none
    | _ => none

end

namespace JSON

/-- Model of the platform JSON.parse: a single JSON value surrounded by
optional whitespace; any deviation from the grammar is a thrown SyntaxError,
modelled as none. -/
def parse (text : String) : Option Json :=
  match parseVal (2 * text.length + 2) text.data with
  | some (j, rest) => if skipWs rest = [] then some j else none
  | none => none

end JSON

example : JSON.parse "\x7b\"x\":1\x7d" = some (Json.obj [("x", Json.num "1")]) := rfl

example : JSON.parse "hello world" = none := rfl

example : JSON.parse " [1, true, null, \"a\\n\", -2.5e3] " =
    some (Json.arr [Json.num "1", Json.bool true, Json.null,
      Json.str "a\n", Json.num "-2.5e3"]) := rfl

example : JSON.parse "42" = some (Json.num "42") := rfl

example : JSON.parse "01" = none := rfl

example : JSON.parse "\x7b\"x\":1" = none := rfl

example : JSON.parse "" = none := rfl

example : JSON.parse "\"\\u0041\"" = some (Json.str "A") := rfl

/-- A chat message, as in types.ts: text, author flag, creation instant
(instants are modelled as naturals). -/
structure Message where
  text : String
  isUser : Bool
  timestamp : Nat
deriving DecidableEq, Repr

/-- The value carried in a MessageResponse payload: the handler may return a
string, a number, or a structured (typeof "object") value; the object case
includes null and arrays, exactly the values JSON.stringify receives. -/
inductive Payload where
  | str (s : String)
  | num (n : Int)
  | obj (j : Json)

/-- A handler response, as in types.ts. -/
structure MessageResponse where
  payload : Payload

/-- A thrown JavaScript value on the failure path: either an Error instance
carrying a message, or any other thrown value. -/
inductive JsError where
  | error (message : String)
  | other
deriving DecidableEq, Repr

/-- JavaScript whitespace recognized by String.prototype.trim. -/
def isJsWhitespace (c : Char) : Bool :=
  c = ' ' || c = '\t' || c = '\n' || c = '\r' ||
  c.toNat = 11 || c.toNat = 12 || c.toNat = 160 || c.toNat = 5760 ||
  (8192 ≤ c.toNat && c.toNat ≤ 8202) ||
  c.toNat = 8232 || c.toNat = 8233 || c.toNat = 8239 || c.toNat = 8287 ||
  c.toNat = 12288 || c.toNat = 65279

/-- Model of String.prototype.trim. -/
def jsTrim (s : String) : String :=
  String.mk (((s.data.dropWhile isJsWhitespace).reverse.dropWhile isJsWhitespace).reverse)

/-- Falsy-coalescing for optional strings: the JavaScript expression
v || d, where an absent or empty string falls back to the default. -/
def jsOrString (v : Option String) (d : String) : String :=
  match v with
  | some s => if s = "" then d else s
  | none => d

/-- Falsy-coalescing for optional numbers: the JavaScript expression
v || d, where an absent or zero value falls back to the default. -/
def jsOrNat (v : Option Nat) (d : Nat) : Nat :=
  match v with
  | some n => if n = 0 then d else n
  | none => d

/-- The styles prop: every field optional, as in AiConfigHelperProps. -/
structure Styles where
  width : Option Nat := none
  maxHeight : Option Nat := none
  assistantMessageColor : Option String := none
  userMessageColor : Option String := none
  userMessageTextColor : Option String := none
deriving DecidableEq, Repr

/-- The resolved style record the component computes. -/
structure ResolvedStyles where
  width : Nat
  maxHeight : Nat
  userMessageColor : String
  userMessageTextColor : String
  assistantMessageColor : String
deriving DecidableEq, Repr

/-- Default styles with overrides, as computed at the top of the component. -/
def componentStyles (styles : Styles) : ResolvedStyles :=
  { width := jsOrNat styles.width 320,
    maxHeight := jsOrNat styles.maxHeight 400,
    userMessageColor := jsOrString styles.userMessageColor "primary.main",
    userMessageTextColor := jsOrString styles.userMessageTextColor "white",
    assistantMessageColor := jsOrString styles.assistantMessageColor "grey.100" }

/-- Construction parameters relevant to the modelled behavior.  The pluggable
callbacks are modelled by presence flags; their results enter the transition
functions as explicit arguments. -/
structure Props where
  fieldId : String
  fieldName : String
  hasOnApplyValue : Bool := false
  hasOnSendMessage : Bool := false
  welcomeMessage : Option String := none
  helpButtonLabel : String := "Get AI assistance"
  styles : Styles := {}

/-- The component's mutable view state: anchor element presence (panel
open/closed), pending input text, message list, busy flag. -/
structure ChatState where
  anchorOpen : Bool := false
  userInput : String := ""
  messages : List Message := []
  isLoading : Bool := false
deriving DecidableEq, Repr

/-- The default welcome message template, interpolating the field name. -/
def defaultWelcomeMessage (fieldName : String) : String :=
  s!"Hi there! I\x27m AiConfigHelper. How can I help you configure the \"{fieldName}\" field?"

/-- The welcome text actually inserted: welcomeMessage || defaultWelcomeMessage. -/
def welcomeText (props : Props) : String :=
  jsOrString props.welcomeMessage (defaultWelcomeMessage props.fieldName)

/-- handleOpenChat: set the anchor, and seed the welcome message only when no
messages exist yet. -/
def handleOpenChat (props : Props) (now : Nat) (s : ChatState) : ChatState :=
  { s with
    anchorOpen := true,
    messages :=
      if s.messages.length = 0 then
        [{ text := welcomeText props, isUser := false, timestamp := now }]
      else s.messages }

/-- handleCloseChat: clear the anchor; nothing else changes. -/
def handleCloseChat (s : ChatState) : ChatState :=
  { s with anchorOpen := false }

/-- handleInputChange: store the input field's current value. -/
def handleInputChange (v : String) (s : ChatState) : ChatState :=
  { s with userInput := v }

example : welcomeText { fieldId := "notes", fieldName := "Notes" } =
    "Hi there! I\x27m AiConfigHelper. How can I help you configure the \"Notes\" field?" := rfl

example : welcomeText { fieldId := "n", fieldName := "Notes", welcomeMessage := some "Yo" } = "Yo" := rfl

/-- The field-name test used by mockApiResponse:
fieldName.toLowerCase().includes("json") || fieldName.toLowerCase().includes("schema"). -/
def fieldWantsJson (fieldName : String) : Bool :=
  jsIncludes (jsToLower fieldName) "json" || jsIncludes (jsToLower fieldName) "schema"

/-- First canned structured payload of the mock (a JSON-schema-shaped object). -/
def mockSchemaPayload1 : Json :=
  Json.obj [("schema", Json.obj
    [("type", Json.str "object"),
     ("properties", Json.obj
       [("name", Json.obj [("type", Json.str "string")]),
        ("age", Json.obj [("type", Json.str "number")])])])]

/-- Second canned structured payload of the mock. -/
def mockSchemaPayload2 : Json :=
  Json.obj [("example", Json.obj
    [("name", Json.str "John Doe"), ("age", Json.num "30")])]

/-- Third canned structured payload of the mock. -/
def mockSchemaPayload3 : Json :=
  Json.obj [("configuration", Json.obj
    [("required", Json.arr [Json.str "name"]),
     ("additionalProperties", Json.bool false)])]

/-- The three-element responses array built inside mockApiResponse:
each entry is a structured payload when the field name mentions json/schema,
and a plain-text string otherwise. -/
def mockResponses (fieldName : String) : List MessageResponse :=
  [ { payload :=
        if fieldWantsJson fieldName then .obj mockSchemaPayload1
        else .str "This is a sample note from AI assistant." },
    { payload :=
        if fieldWantsJson fieldName then .obj mockSchemaPayload2
        else .str "Another helpful note for your reference." },
    { payload :=
        if fieldWantsJson fieldName then .obj mockSchemaPayload3
        else .str "AI-generated content for the notes field." } ]

/-- mockApiResponse: pick responses[k] where k = Math.floor(Math.random() *
responses.length); the random draw is modelled by the index k. -/
def mockApiResponse (fieldName : String) (k : Fin 3) : MessageResponse :=
  (mockResponses fieldName).get (Fin.cast (by rfl) k)

/-- Index selection of the mock: Math.floor(r * 3) for a draw r of
Math.random(). -/
def pickIndex (r : ℚ) : ℤ :=
  Int.floor (r * 3)

/-- The settled dispatch of one submission: which delay was awaited and which
outcome arrived.  With a custom handler the outcome is whatever the handler
settled with; without one, the code awaits a 1000ms timeout and then always
succeeds with a mock response. -/
structure Dispatch where
  delayMs : Nat
  outcome : Except JsError MessageResponse

/-- How handleSendMessage obtains its response: custom handler if configured,
built-in delayed mock otherwise. -/
def dispatchFor (hasHandler : Bool) (handlerOutcome : Except JsError MessageResponse)
    (fieldName : String) (k : Fin 3) : Dispatch :=
  if hasHandler then { delayMs := 0, outcome := handlerOutcome }
  else { delayMs := 1000, outcome := Except.ok (mockApiResponse fieldName k) }

/-- The lead-in assistant text referencing the field name. -/
def leadInText (fieldName : String) : String :=
  s!"Here\x27s what I suggest for the \"{fieldName}\" field:"

/-- The fixed apply-prompt assistant text. -/
def suggestionText : String :=
  "Would you like to apply this value to the field? Just click on the message."

/-- The payload rendering of handleSendMessage:
typeof payload === "object" gives JSON.stringify(payload, null, 2), anything
else gives payload.toString(). -/
def renderPayload : Payload → String
  | .obj j => Json.stringify j
  | .str s => s
  | .num n => toString n

/-- error instanceof Error ? error.message : "Unknown error". -/
def errorDescription : JsError → String
  | .error m => m
  | .other => "Unknown error"

/-- The error text of the catch branch:
the Error's message, or "Unknown error" for a non-Error thrown value. -/
def errorText (e : JsError) : String :=
  "Sorry, I encountered an error: " ++ errorDescription e

/-- Result of the synchronous opening of handleSendMessage: the state after
the synchronous updates, and whether the guard passed (dispatch proceeds and
the handler will be invoked). -/
structure SubmitStart where
  state : ChatState
  dispatched : Bool
deriving DecidableEq, Repr

/-- The synchronous opening of handleSendMessage, up to the first await:
return unchanged on blank input; otherwise append the trimmed user message,
clear the input, and set the busy flag. -/
def handleSendMessageStart (now : Nat) (s : ChatState) : SubmitStart :=
  if jsTrim s.userInput = "" then { state := s, dispatched := false }
  else
    { state :=
        { s with
          messages := s.messages ++
            [{ text := jsTrim s.userInput, isUser := true, timestamp := now }],
          userInput := "",
          isLoading := true },
      dispatched := true }

/-- The settlement of handleSendMessage once the dispatch outcome is known:
on success append the three assistant messages, on failure append the single
error message; the finally branch clears the busy flag in both cases. -/
def handleSendMessageSettle (fieldName : String) (now : Nat)
    (outcome : Except JsError MessageResponse) (s : ChatState) : ChatState :=
  match outcome with
  | .ok response =>
      { s with
        messages := s.messages ++
          [{ text := leadInText fieldName, isUser := false, timestamp := now },
           { text := renderPayload response.payload, isUser := false, timestamp := now },
           { text := suggestionText, isUser := false, timestamp := now }],
        isLoading := false }
  | .error e =>
      { s with
        messages := s.messages ++
          [{ text := errorText e, isUser := false, timestamp := now }],
        isLoading := false }

/-- A keyboard event, as far as handleKeyPress inspects it. -/
structure KeyEvent where
  key : String
  shiftKey : Bool
deriving DecidableEq, Repr

/-- handleKeyPress: plain Enter triggers handleSendMessage; anything else does
nothing. -/
def handleKeyPress (e : KeyEvent) (now : Nat) (s : ChatState) : SubmitStart :=
  if e.key = "Enter" && !e.shiftKey then handleSendMessageStart now s
  else { state := s, dispatched := false }

/-- The disabled condition of the send button:
userInput.trim() === "" || isLoading. -/
def sendButtonDisabled (s : ChatState) : Bool :=
  jsTrim s.userInput = "" || s.isLoading

/-- What the apply-callback received, if it was invoked. -/
inductive AppliedValue where
  | parsed (j : Json)
  | raw (s : String)

/-- Observable outcome of handleApplyValue. -/
inductive ApplyOutcome where
  | notCalled
  | calledWith (v : AppliedValue)

/-- handleApplyValue: no-op without a configured callback; otherwise the
callback receives JSON.parse(text) when it parses, and the raw text when
parsing throws. -/
def handleApplyValue (hasOnApplyValue : Bool) (text : String) : ApplyOutcome :=
  if !hasOnApplyValue then .notCalled
  else
    match JSON.parse text with
    | some v => .calledWith (.parsed v)
    | none => .calledWith (.raw text)

/-- Every state-changing entry point of the component, with the data each one
needs: the instants of message creation, the settled dispatch outcome of a
submission, the inspected key event, the clicked message text. -/
inductive Op where
  | openChat (now : Nat)
  | closeChat
  | inputChange (v : String)
  | sendStart (now : Nat)
  | sendSettle (now : Nat) (outcome : Except JsError MessageResponse)
  | keyPress (e : KeyEvent) (now : Nat)
  | applyClick (text : String)

/-- The component's transition function over all entry points.  A click on an
assistant message (applyClick) calls the host callback but changes no view
state. -/
def step (props : Props) (op : Op) (s : ChatState) : ChatState :=
  match op with
  | .openChat now => handleOpenChat props now s
  | .closeChat => handleCloseChat s
  | .inputChange v => handleInputChange v s
  | .sendStart now => (handleSendMessageStart now s).state
  | .sendSettle now outcome => handleSendMessageSettle props.fieldName now outcome s
  | .keyPress e now => (handleKeyPress e now s).state
  | .applyClick _ => s

example : fieldWantsJson "JSON Schema" = true := rfl

example : fieldWantsJson "Notes" = false := rfl

example : renderPayload (mockApiResponse "JSON Schema" 1).payload =
    "\x7b\n  \"example\": \x7b\n    \"name\": \"John Doe\",\n    \"age\": 30\n  \x7d\n\x7d" := rfl

/-- Iterated reopening of the panel. -/
def openTimes (props : Props) (now : Nat) : Nat → ChatState → ChatState
  | 0, s => s
  | n + 1, s => openTimes props now n (handleOpenChat props now s)

/-- A concrete state with a dispatch in flight: the busy flag is set and the
user has typed further non-blank input. -/
def busyState : ChatState :=
  { anchorOpen := true,
    userInput := "retry please",
    messages := [{ text := "first question", isUser := true, timestamp := 1 }],
    isLoading := true }

/-- Opening the panel always leaves at least one message. -/
theorem handleOpenChat_messages_ne_nil (props : Props) (now : Nat) (s : ChatState) :
    (handleOpenChat props now s).messages ≠ [] := by
  by_cases h : s.messages.length = 0
  · simp [handleOpenChat, h]
  · simpa [handleOpenChat, h] using fun hh => h (by simp [hh])

/-- Opening the panel with messages already present leaves them unchanged. -/
theorem handleOpenChat_messages_of_ne_nil (props : Props) (now : Nat) (s : ChatState)
    (h : s.messages ≠ []) : (handleOpenChat props now s).messages = s.messages := by
  have hl : s.messages.length ≠ 0 := by simpa using fun hh => h (by simpa using hh)
  simp [handleOpenChat, hl]

/-- Iterated opens never change an already nonempty message list. -/
theorem openTimes_messages_of_ne_nil (props : Props) (now : Nat) (n : Nat) :
    ∀ s : ChatState, s.messages ≠ [] → (openTimes props now n s).messages = s.messages := by
  induction n with
  | zero => intro s _; rfl
  | succ n ih =>
    intro s h
    have hopen := handleOpenChat_messages_of_ne_nil props now s h
    calc (openTimes props now (n + 1) s).messages
        = (openTimes props now n (handleOpenChat props now s)).messages := rfl
      _ = (handleOpenChat props now s).messages := ih _ (by rw [hopen]; exact h)
      _ = s.messages := hopen

/-- Claim C1 (failing input): with a dispatch in flight (busy flag set), the
send button is disabled, yet an Enter keypress on non-blank input still goes
through handleSendMessage: the guard checks only for blank input, so a second
user message is appended and the dispatch (handler invocation) proceeds
again. -/
theorem enter_key_submit_bypasses_busy_gate :
    busyState.isLoading = true ∧
    sendButtonDisabled busyState = true ∧
    (handleKeyPress { key := "Enter", shiftKey := false } 7 busyState).dispatched = true ∧
    (handleKeyPress { key := "Enter", shiftKey := false } 7 busyState).state.messages =
      busyState.messages ++ [{ text := "retry please", isUser := true, timestamp := 7 }] :=
  ⟨rfl, rfl, rfl, rfl⟩

/-- Claim C2: for non-blank input, the synchronous opening of
handleSendMessage dispatches and appends exactly the trimmed user message;
when the handler then succeeds, exactly three assistant messages follow in
order: the lead-in referencing the field name, the rendered payload
(pretty-printed JSON for a structured value, plain string form otherwise),
and the fixed apply prompt. -/
theorem submit_success_appends_user_then_three_assistant
    (fieldName : String) (s : ChatState) (now now2 : Nat) (resp : MessageResponse)
    (h : jsTrim s.userInput ≠ "") :
    (handleSendMessageStart now s).dispatched = true ∧
    (handleSendMessageStart now s).state.messages =
      s.messages ++ [{ text := jsTrim s.userInput, isUser := true, timestamp := now }] ∧
    (handleSendMessageSettle fieldName now2 (Except.ok resp)
        (handleSendMessageStart now s).state).messages =
      s.messages ++ [{ text := jsTrim s.userInput, isUser := true, timestamp := now }]
        ++ [{ text := leadInText fieldName, isUser := false, timestamp := now2 },
            { text := renderPayload resp.payload, isUser := false, timestamp := now2 },
            { text := suggestionText, isUser := false, timestamp := now2 }] ∧
    (∀ j, renderPayload (Payload.obj j) = Json.stringify j) ∧
    (∀ t, renderPayload (Payload.str t) = t) := by
  refine ⟨?_, ?_, ?_, fun j => rfl, fun t => rfl⟩ <;>
    simp [handleSendMessageStart, h, handleSendMessageSettle]

/-- Claim C2 witness: a concrete successful submission of "help me". -/
theorem submit_success_appends_user_then_three_assistant_witness :
    (handleSendMessageSettle "Notes" 2 (Except.ok { payload := Payload.str "A note" })
        (handleSendMessageStart 1 { userInput := "help me" }).state).messages =
      [{ text := "help me", isUser := true, timestamp := 1 },
       { text := "Here\x27s what I suggest for the \"Notes\" field:", isUser := false, timestamp := 2 },
       { text := "A note", isUser := false, timestamp := 2 },
       { text := "Would you like to apply this value to the field? Just click on the message.",
         isUser := false, timestamp := 2 }] := by
  rw [(submit_success_appends_user_then_three_assistant "Notes" { userInput := "help me" } 1 2
    { payload := Payload.str "A note" } (by decide)).2.2.1]
  rfl

/-- Claim C3: when the handler rejects, the failure is absorbed into state
(the settle function is total): exactly one assistant message is appended,
its text is the failure description after the fixed lead, "Unknown error"
standing in when the thrown value is not an Error, the busy flag is cleared,
and no other state field changes. -/
theorem handler_failure_appends_single_error_message (fieldName : String) (now : Nat)
    (e : JsError) (s : ChatState) :
    (handleSendMessageSettle fieldName now (Except.error e) s).messages =
      s.messages ++ [{ text := errorText e, isUser := false, timestamp := now }] ∧
    (handleSendMessageSettle fieldName now (Except.error e) s).isLoading = false ∧
    (handleSendMessageSettle fieldName now (Except.error e) s).anchorOpen = s.anchorOpen ∧
    (handleSendMessageSettle fieldName now (Except.error e) s).userInput = s.userInput ∧
    (∀ m, errorText (JsError.error m) = "Sorry, I encountered an error: " ++ m) ∧
    errorText JsError.other = "Sorry, I encountered an error: Unknown error" :=
  ⟨rfl, rfl, rfl, rfl, fun _ => rfl, rfl⟩

/-- Claim C4: submitting input that is blank after trimming changes nothing
and never dispatches, through the direct call and through the Enter key
alike. -/
theorem blank_submit_is_noop (now : Nat) (s : ChatState)
    (h : jsTrim s.userInput = "") :
    handleSendMessageStart now s = { state := s, dispatched := false } ∧
    (∀ e : KeyEvent, (handleKeyPress e now s).state = s ∧
      (handleKeyPress e now s).dispatched = false) := by
  constructor
  · simp [handleSendMessageStart, h]
  · intro e
    by_cases hk : e.key = "Enter" && !e.shiftKey <;>
      simp [handleKeyPress, hk, handleSendMessageStart, h]

/-- Claim C4 witness: whitespace-only input is a no-op. -/
theorem blank_submit_is_noop_witness :
    handleSendMessageStart 5 { userInput := " \t  " } =
      { state := { userInput := " \t  " }, dispatched := false } :=
  (blank_submit_is_noop 5 { userInput := " \t  " } (by decide)).1

/-- Claim C5: opening with an empty message list inserts exactly the welcome
message (custom override when it is a nonempty configured string, the default
template interpolating the field name otherwise); any number of further opens
inserts nothing more. -/
theorem open_seeds_welcome_once (props : Props) (now : Nat) (s : ChatState) :
    (s.messages = [] →
      (handleOpenChat props now s).messages =
        [{ text := welcomeText props, isUser := false, timestamp := now }]) ∧
    (s.messages ≠ [] → (handleOpenChat props now s).messages = s.messages) ∧
    (∀ n now2, (openTimes props now2 n (handleOpenChat props now s)).messages =
      (handleOpenChat props now s).messages) ∧
    (∀ w, w ≠ "" → welcomeText { props with welcomeMessage := some w } = w) ∧
    welcomeText { props with welcomeMessage := none } =
      defaultWelcomeMessage props.fieldName := by
  refine ⟨fun h => ?_, fun h => handleOpenChat_messages_of_ne_nil props now s h,
    fun n now2 => openTimes_messages_of_ne_nil props now2 n _
      (handleOpenChat_messages_ne_nil props now s),
    fun w hw => ?_, rfl⟩
  · simp [handleOpenChat, h]
  · simp [welcomeText, jsOrString, hw]

/-- Claim C5 witness: first open on an empty list seeds the default welcome
text for the "JSON Schema" field and a reopen adds nothing. -/
theorem open_seeds_welcome_once_witness :
    (handleOpenChat { fieldId := "schema", fieldName := "JSON Schema" } 0 {}).messages =
      [{ text := "Hi there! I\x27m AiConfigHelper. How can I help you configure the \"JSON Schema\" field?",
         isUser := false, timestamp := 0 }] ∧
    (openTimes { fieldId := "schema", fieldName := "JSON Schema" } 9 4
        (handleOpenChat { fieldId := "schema", fieldName := "JSON Schema" } 0 {})).messages =
      (handleOpenChat { fieldId := "schema", fieldName := "JSON Schema" } 0 {}).messages := by
  constructor
  · rw [(open_seeds_welcome_once { fieldId := "schema", fieldName := "JSON Schema" } 0 {}).1 rfl]
    rfl
  · exact (open_seeds_welcome_once { fieldId := "schema", fieldName := "JSON Schema" } 0 {}).2.2.1 4 9

/-- Claim C6: handleApplyValue is a no-op without a configured callback;
otherwise the callback receives the JSON.parse of the clicked text when it
parses, and the raw text unchanged when parsing fails — a parse failure is
never an error.  Includes the two concrete example texts. -/
theorem apply_parses_json_else_raw :
    (∀ text, handleApplyValue false text = ApplyOutcome.notCalled) ∧
    (∀ text j, JSON.parse text = some j →
      handleApplyValue true text = ApplyOutcome.calledWith (AppliedValue.parsed j)) ∧
    (∀ text, JSON.parse text = none →
      handleApplyValue true text = ApplyOutcome.calledWith (AppliedValue.raw text)) ∧
    JSON.parse "\x7b\"x\":1\x7d" = some (Json.obj [("x", Json.num "1")]) ∧
    handleApplyValue true "\x7b\"x\":1\x7d" =
      ApplyOutcome.calledWith (AppliedValue.parsed (Json.obj [("x", Json.num "1")])) ∧
    JSON.parse "hello world" = none ∧
    handleApplyValue true "hello world" =
      ApplyOutcome.calledWith (AppliedValue.raw "hello world") := by
  refine ⟨fun text => rfl, fun text j h => ?_, fun text h => ?_, rfl, rfl, rfl, rfl⟩
  · simp [handleApplyValue, h]
  · simp [handleApplyValue, h]

/-- Claim C6 witness: a numeric literal reaches the callback parsed. -/
theorem apply_parses_json_else_raw_witness :
    handleApplyValue true "42" = ApplyOutcome.calledWith (AppliedValue.parsed (Json.num "42")) :=
  apply_parses_json_else_raw.2.1 "42" (Json.num "42") rfl

/-- Claim C7: once a non-blank submission settles — with a success or with a
failure alike — the pending input is empty and the busy flag is false; the
input is in fact already cleared by the synchronous phase and the finally
branch clears the flag on every path. -/
theorem settle_clears_input_and_busy (fieldName : String) (s : ChatState)
    (now now2 : Nat) (outcome : Except JsError MessageResponse)
    (h : jsTrim s.userInput ≠ "") :
    (handleSendMessageStart now s).state.userInput = "" ∧
    (handleSendMessageStart now s).state.isLoading = true ∧
    (handleSendMessageSettle fieldName now2 outcome
      (handleSendMessageStart now s).state).userInput = "" ∧
    (handleSendMessageSettle fieldName now2 outcome
      (handleSendMessageStart now s).state).isLoading = false := by
  refine ⟨?_, ?_, ?_, ?_⟩ <;> cases outcome <;>
    simp [handleSendMessageStart, handleSendMessageSettle, h]

/-- Claim C7 witness: the failure path of a concrete submission still ends
with a cleared input and a cleared busy flag. -/
theorem settle_clears_input_and_busy_witness :
    (handleSendMessageSettle "Notes" 2 (Except.error (JsError.error "network down"))
      (handleSendMessageStart 1 { userInput := "boom" }).state).userInput = "" ∧
    (handleSendMessageSettle "Notes" 2 (Except.error (JsError.error "network down"))
      (handleSendMessageStart 1 { userInput := "boom" }).state).isLoading = false := by
  have h := settle_clears_input_and_busy "Notes" { userInput := "boom" } 1 2
    (Except.error (JsError.error "network down")) (by decide)
  exact ⟨h.2.2.1, h.2.2.2⟩

/-- Claim C8: without a custom handler the dispatch awaits the fixed 1000ms
delay and always succeeds with responses[Math.floor(r * 3)], one of the three
canned entries; every canned payload is a structured object exactly when the
field name contains "json" or "schema" case-insensitively, and a plain string
otherwise; and the floor selection sends a uniform draw r from [0, 1) to each
of the three indices on an interval of equal width one third. -/
theorem mock_dispatch_delay_choice_and_shape :
    (∀ (hr : Except JsError MessageResponse) (fieldName : String) (k : Fin 3),
      dispatchFor false hr fieldName k =
        { delayMs := 1000, outcome := Except.ok (mockApiResponse fieldName k) }) ∧
    (∀ fieldName, (mockResponses fieldName).length = 3) ∧
    (∀ (fieldName : String) (k : Fin 3),
      mockApiResponse fieldName k ∈ mockResponses fieldName) ∧
    (∀ (fieldName : String) (k : Fin 3), fieldWantsJson fieldName = true →
      ∃ j, (mockApiResponse fieldName k).payload = Payload.obj j) ∧
    (∀ (fieldName : String) (k : Fin 3), fieldWantsJson fieldName = false →
      ∃ t, (mockApiResponse fieldName k).payload = Payload.str t) ∧
    fieldWantsJson "JSON Schema" = true ∧
    fieldWantsJson "Notes" = false ∧
    (∀ r : ℚ, 0 ≤ r → r < 1 → ∀ k : Fin 3,
      (pickIndex r = (k.val : ℤ) ↔ (k.val : ℚ) / 3 ≤ r ∧ r < ((k.val : ℚ) + 1) / 3)) := by
  refine ⟨fun hr fieldName k => rfl, fun fieldName => rfl,
    fun fieldName k => List.get_mem _ _ _,
    fun fieldName k h => ?_, fun fieldName k h => ?_, rfl, rfl,
    fun r h0 h1 k => ?_⟩
  · fin_cases k <;> simp [mockApiResponse, mockResponses, h]
  · fin_cases k <;> simp [mockApiResponse, mockResponses, h]
  · rw [pickIndex, Int.floor_eq_iff]
    push_cast
    constructor
    · rintro ⟨a, b⟩
      exact ⟨by linarith, by linarith⟩
    · rintro ⟨a, b⟩
      exact ⟨by linarith, by linarith⟩

/-- Claim C8 witness: the "JSON Schema" field gets a structured payload, and
the draw one half lands on the middle index. -/
theorem mock_dispatch_delay_choice_and_shape_witness :
    (∃ j, (mockApiResponse "JSON Schema" 0).payload = Payload.obj j) ∧
    (pickIndex (1 / 2) = ((1 : Fin 3).val : ℤ) ↔
      (((1 : Fin 3).val : ℚ) / 3 ≤ 1 / 2 ∧ (1 / 2 : ℚ) < (((1 : Fin 3).val : ℚ) + 1) / 3)) :=
  ⟨mock_dispatch_delay_choice_and_shape.2.2.2.1 "JSON Schema" 0 rfl,
   mock_dispatch_delay_choice_and_shape.2.2.2.2.2.2.2 (1 / 2) (by norm_num) (by norm_num) 1⟩

/-- Claim C9: every entry point of the component only ever appends to the
message list (the appended block may be empty), so existing messages survive
unchanged — in particular the full history survives a close followed by a
reopen. -/
theorem messages_append_only :
    (∀ (props : Props) (op : Op) (s : ChatState),
      ∃ t, (step props op s).messages = s.messages ++ t) ∧
    (∀ (props : Props) (now : Nat) (s : ChatState), s.messages ≠ [] →
      (handleOpenChat props now (handleCloseChat s)).messages = s.messages) := by
  constructor
  · intro props op s
    cases op with
    | openChat now =>
      by_cases h : s.messages.length = 0
      · have h0 : s.messages = [] := List.length_eq_zero.mp h
        exact ⟨[{ text := welcomeText props, isUser := false, timestamp := now }],
          by simp [step, handleOpenChat, h, h0]⟩
      · exact ⟨[], by simp [step, handleOpenChat, h]⟩
    | closeChat => exact ⟨[], by simp [step, handleCloseChat]⟩
    | inputChange v => exact ⟨[], by simp [step, handleInputChange]⟩
    | sendStart now =>
      by_cases h : jsTrim s.userInput = ""
      · exact ⟨[], by simp [step, handleSendMessageStart, h]⟩
      · exact ⟨[{ text := jsTrim s.userInput, isUser := true, timestamp := now }],
          by simp [step, handleSendMessageStart, h]⟩
    | sendSettle now outcome =>
      cases outcome with
      | ok resp => exact ⟨_, rfl⟩
      | error e => exact ⟨_, rfl⟩
    | keyPress e now =>
      by_cases hk : e.key = "Enter" && !e.shiftKey
      · by_cases h : jsTrim s.userInput = ""
        · exact ⟨[], by simp [step, handleKeyPress, hk, handleSendMessageStart, h]⟩
        · exact ⟨[{ text := jsTrim s.userInput, isUser := true, timestamp := now }],
            by simp [step, handleKeyPress, hk, handleSendMessageStart, h]⟩
      · exact ⟨[], by simp [step, handleKeyPress, hk]⟩
    | applyClick t => exact ⟨[], by simp [step]⟩
  · intro props now s h
    exact handleOpenChat_messages_of_ne_nil props now _ h

/-- Claim C9 witness: a concrete close followed by a reopen keeps the one
existing message. -/
theorem messages_append_only_witness :
    (handleOpenChat { fieldId := "notes", fieldName := "Notes" } 3
      (handleCloseChat { messages := [{ text := "w", isUser := false, timestamp := 0 }] })).messages =
      [{ text := "w", isUser := false, timestamp := 0 }] :=
  messages_append_only.2 { fieldId := "notes", fieldName := "Notes" } 3
    { messages := [{ text := "w", isUser := false, timestamp := 0 }] } (by decide)

/-- A falsy-coalesced number is never zero when the default is nonzero. -/
theorem jsOrNat_ne_zero (v : Option Nat) (d : Nat) (hd : d ≠ 0) : jsOrNat v d ≠ 0 := by
  cases v with
  | none => exact hd
  | some n =>
    by_cases h : n = 0
    · simpa [jsOrNat, h] using hd
    · simp [jsOrNat, h]

/-- A falsy-coalesced string is never empty when the default is nonempty. -/
theorem jsOrString_ne_empty (v : Option String) (d : String) (hd : d ≠ "") : jsOrString v d ≠ "" := by
  cases v with
  | none => exact hd
  | some c =>
    by_cases h : c = ""
    · simpa [jsOrString, h] using hd
    · simp [jsOrString, h]

/-- Claim C10: the resolved styles coalesce every falsy supplied value, not
only absent ones: a zero width or height and an empty color are replaced by
the built-in defaults, so no resolved dimension is ever zero and no resolved
color is ever empty. -/
theorem style_defaults_replace_falsy :
    (∀ st : Styles,
      (componentStyles st).width ≠ 0 ∧
      (componentStyles st).maxHeight ≠ 0 ∧
      (componentStyles st).userMessageColor ≠ "" ∧
      (componentStyles st).userMessageTextColor ≠ "" ∧
      (componentStyles st).assistantMessageColor ≠ "") ∧
    componentStyles
        { width := some 0, maxHeight := some 0, userMessageColor := some "",
          userMessageTextColor := some "", assistantMessageColor := some "" } =
      { width := 320, maxHeight := 400, userMessageColor := "primary.main",
        userMessageTextColor := "white", assistantMessageColor := "grey.100" } ∧
    componentStyles {} =
      { width := 320, maxHeight := 400, userMessageColor := "primary.main",
        userMessageTextColor := "white", assistantMessageColor := "grey.100" } := by
  refine ⟨fun st => ⟨jsOrNat_ne_zero _ _ (by decide), jsOrNat_ne_zero _ _ (by decide),
    jsOrString_ne_empty _ _ (by decide), jsOrString_ne_empty _ _ (by decide),
    jsOrString_ne_empty _ _ (by decide)⟩, rfl, rfl⟩
